import Mathlib

/-!
Shallow embedding of `src/utils/help.py` (Kurisu interactive help module):
paginator state machines, navigation view button logic, and the
help-command integration's selector splitting. Python objects become
structures; mutating methods become state-passing functions; Python's
`int` is `Int`; `math.ceil(len(xs) / k)` on the exact sizes used here is
Nat ceiling division; the lazy page cache (a `dict[int, Embed]`) is an
association list where insertion prepends and lookup takes the first hit.
-/

set_option autoImplicit false

namespace KurisuHelp

/-- A chat-platform embed, reduced to the content the module produces:
title, description, ordered fields (name, value, inline flag), footer. -/
structure EmbedField where
  name : String
  value : String
  inline : Bool
deriving DecidableEq

structure Embed where
  title : String
  description : String
  fields : List EmbedField
  footer : String
deriving DecidableEq

/-- The slice of `commands.Command` the module reads. -/
structure Command where
  name : String
  qualified_name : String
  signature : String
  short_doc : String
  description : String
  help : String
  aliases : List String
  cog_name : String
deriving DecidableEq

/-- The slice of `commands.Cog` (also used for `commands.Group`) the module reads. -/
structure Cog where
  qualified_name : String
  description : String
deriving DecidableEq

/-- Python slice-endpoint resolution for `l[a:b]`: a negative index counts
from the end (clamped at 0), a nonnegative one is clamped at `len`. -/
def pyResolve (len : Nat) (i : Int) : Nat :=
  if i < 0 then ((len : Int) + i).toNat else min i.toNat len

/-- Python list slice `l[a:b]` with `Int` endpoints. -/
def pySlice {α : Type} (l : List α) (a b : Int) : List α :=
  (l.drop (pyResolve l.length a)).take (pyResolve l.length b - pyResolve l.length a)

/-- `dict.get` on the page cache: first entry with the given key. -/
def pagesGet (pages : List (Int × Embed)) (i : Int) : Option Embed :=
  (pages.find? (fun kv => kv.1 == i)).map (·.2)

/-- `self.pages[idx] = embed`: later assignments shadow earlier ones. -/
def pagesSet (pages : List (Int × Embed)) (i : Int) (e : Embed) : List (Int × Embed) :=
  (i, e) :: pages

/-- `math.ceil(n / k)` for the exact small sizes the module divides. -/
def ceilDiv (n k : Nat) : Nat := (n + k - 1) / k

/-- `BasePaginator.__init__`: `n_pages` fixed, cursor `idx` starts at 0,
page cache starts empty. -/
structure BasePaginator where
  n_pages : Int
  idx : Int
  pages : List (Int × Embed)
deriving DecidableEq

namespace BasePaginator

def init (n : Int) : BasePaginator := { n_pages := n, idx := 0, pages := [] }

/-- `self.idx = max(self.idx - 1, 0)` -/
def previous (p : BasePaginator) : BasePaginator := { p with idx := max (p.idx - 1) 0 }

/-- `self.idx = min(self.idx + 1, self.n_pages - 1)` -/
def next (p : BasePaginator) : BasePaginator := { p with idx := min (p.idx + 1) (p.n_pages - 1) }

/-- `self.idx = 0` -/
def first (p : BasePaginator) : BasePaginator := { p with idx := 0 }

/-- `self.idx = self.n_pages - 1` -/
def last (p : BasePaginator) : BasePaginator := { p with idx := p.n_pages - 1 }

def is_first (p : BasePaginator) : Bool := p.idx == 0

def is_last (p : BasePaginator) : Bool := p.idx == p.n_pages - 1

end BasePaginator

/-- Python `l[i]` on a list: a negative index counts from the end; an
out-of-range index raises `IndexError` in Python and is modelled by the
default value (never reached at an in-range cursor). -/
def pyIndex {α : Type} (l : List α) (i : Int) (dflt : α) : α :=
  if i < 0 then l.getD ((l.length : Int) + i).toNat dflt else l.getD i.toNat dflt

/-- `CogHelpPaginator` (also used for command groups): pages over one
category's command list, `commands_per_page = 8`. -/
structure CogHelpPaginator where
  base : BasePaginator
  cog : Cog
  commands : List Command
  pfx : String
deriving DecidableEq

namespace CogHelpPaginator

def commands_per_page : Nat := 8

/-- `__init__`: `n_pages = math.ceil(len(commands) / 8)`. -/
def init (cog : Cog) (cmds : List Command) (pfx : String) : CogHelpPaginator :=
  { base := BasePaginator.init (ceilDiv cmds.length commands_per_page : Nat)
    cog := cog
    commands := cmds
    pfx := pfx }

/-- `create_embed`: title with a `[page/total]` suffix only when
`n_pages > 1`; one non-inline field per command with its signature and
short doc (placeholder when empty). -/
def create_embed (p : CogHelpPaginator) (cmds : List Command) : Embed :=
  let title := p.cog.qualified_name ++ " commands"
  let title := if p.base.n_pages > 1 then
      title ++ " [" ++ toString (p.base.idx + 1) ++ "/" ++ toString p.base.n_pages ++ "]"
    else title
  { title := title
    description := p.cog.description
    fields := cmds.map (fun c =>
      { name := c.qualified_name ++ " " ++ c.signature
        value := if c.short_doc = "" then "No help for you." else c.short_doc
        inline := false })
    footer := "Use " ++ p.pfx ++ "help [command] for more info about a command." }

/-- `current`: return the cached embed for the cursor, or build it from
`commands[idx*8 : idx*8+8]`, cache it, and return it. -/
def current (p : CogHelpPaginator) : Embed × CogHelpPaginator :=
  match pagesGet p.base.pages p.base.idx with
  | some e => (e, p)
  | none =>
      let index := p.base.idx * (commands_per_page : Nat)
      let e := p.create_embed (pySlice p.commands index (index + (commands_per_page : Nat)))
      (e, { p with base := { p.base with pages := pagesSet p.base.pages p.base.idx e } })

/-- Paginator positioned at page `i` (cursor set directly, cache as is). -/
def atPage (p : CogHelpPaginator) (i : Int) : CogHelpPaginator :=
  { p with base := { p.base with idx := i } }

end CogHelpPaginator

/-- `MainHelpPaginator`: pages over the category → commands mapping,
`categories_per_page = 9`. The mapping is an insertion-ordered dict,
embedded as an ordered association list. -/
structure MainHelpPaginator where
  base : BasePaginator
  description : String
  pfx : String
  slices : List (List (Cog × List Command))
deriving DecidableEq

namespace MainHelpPaginator

def categories_per_page : Nat := 9

/-- `__init__`: `n_pages = math.ceil(len(mapping) / 9)`; the loop
`for i in range(0, len(mapping), 9)` takes nine entries at a time from a
shared iterator, so slice `j` is `mapping[9j : 9j+9]`. -/
def init (mapping : List (Cog × List Command)) (description pfx : String) : MainHelpPaginator :=
  { base := BasePaginator.init (ceilDiv mapping.length categories_per_page : Nat)
    description := description
    pfx := pfx
    slices := (List.range (ceilDiv mapping.length categories_per_page)).map
      (fun i => (mapping.drop (categories_per_page * i)).take categories_per_page) }

/-- `create_embed`: categories with an empty command list are skipped;
each remaining one becomes a field `**name** [count]` (inline, the
`add_field` default). -/
def create_embed (p : MainHelpPaginator) (mapping : List (Cog × List Command)) : Embed :=
  let title := "Kurisu the bot for Nintendo Homebrew"
  let title := if p.base.n_pages > 1 then
      title ++ " [" ++ toString (p.base.idx + 1) ++ "/" ++ toString p.base.n_pages ++ "]"
    else title
  { title := title
    description := p.description ++ "\n\nBelow you will find the categories of commands in Kurisu:"
    fields := (mapping.filter (fun kv => !kv.2.isEmpty)).map (fun kv =>
      { name := "**" ++ kv.1.qualified_name ++ "** [" ++ toString kv.2.length ++ "]"
        value := kv.1.description
        inline := true })
    footer := "Use " ++ p.pfx ++
      "help [category] for more info about a category or select a category below." }

/-- `current`: cache hit, or build from `slices[idx]`, cache, return. -/
def current (p : MainHelpPaginator) : Embed × MainHelpPaginator :=
  match pagesGet p.base.pages p.base.idx with
  | some e => (e, p)
  | none =>
      let e := p.create_embed (pyIndex p.slices p.base.idx [])
      (e, { p with base := { p.base with pages := pagesSet p.base.pages p.base.idx e } })

/-- Paginator positioned at page `i` (cursor set directly, cache as is). -/
def atPage (p : MainHelpPaginator) (i : Int) : MainHelpPaginator :=
  { p with base := { p.base with idx := i } }

end MainHelpPaginator

/-- `CommandHelpPaginator`: always one page. -/
structure CommandHelpPaginator where
  base : BasePaginator
  description : String
  pfx : String
  command : Command
deriving DecidableEq

namespace CommandHelpPaginator

/-- `__init__`: `n_pages = 1`; the description falls back to a
placeholder when the command has no help text. -/
def init (c : Command) (pfx : String) : CommandHelpPaginator :=
  { base := BasePaginator.init 1
    description := if c.help = "" then "No help for you." else c.help
    pfx := pfx
    command := c }

/-- `create_embed`: aliases field only when aliases exist, usage line,
category footer with placeholder when uncategorized. -/
def create_embed (p : CommandHelpPaginator) (c : Command) : Embed :=
  { title := c.name ++ " command"
    description := p.description
    fields :=
      (if c.aliases.isEmpty then [] else
        [{ name := "Aliases", value := String.intercalate " " c.aliases, inline := false }]) ++
      [{ name := "Usage"
         value := p.pfx ++ " " ++ c.qualified_name ++ " " ++ c.signature
         inline := false }]
    footer := "Category: " ++ (if c.cog_name = "" then "No Category" else c.cog_name) }

/-- `current`: rebuilt on every call, the page cache is never consulted
or written. -/
def current (p : CommandHelpPaginator) : Embed × CommandHelpPaginator :=
  (p.create_embed p.command, p)

end CommandHelpPaginator

/-- A minimal command with the given name (concrete test data). -/
def mkCmd (s : String) : Command :=
  { name := s, qualified_name := s, signature := "", short_doc := "",
    description := "", help := "", aliases := [], cog_name := "Cat" }

def emptyCog : Cog := { qualified_name := "Empty", description := "no commands" }

def cogA : Cog := { qualified_name := "Assistance", description := "help stuff" }

/-- Seventeen concrete commands, for the capacity-8 paging claim. -/
def cmds17 : List Command := (List.range 17).map (fun n => mkCmd ("c" ++ toString n))

def mkCat (n : Nat) : Cog :=
  { qualified_name := "cat" ++ toString n, description := "d" ++ toString n }

/-- Twenty-one categories, of which numbers 6, 13 and 20 have zero
visible commands. -/
def mapping21 : List (Cog × List Command) :=
  (List.range 21).map (fun n =>
    (mkCat n, if n % 7 = 6 then [] else [mkCmd ("cmd" ++ toString n)]))

def cmdPing : Command := mkCmd "ping"

def SELECT_MAX_VALUES : Nat := 25

/-- `range(0, stop, step)` for a positive `step`. -/
def pyRange (stop step : Nat) : List Nat :=
  (List.range (ceilDiv stop step)).map (· * step)

/-- A command dropdown as `send_cog_help` builds it: the command chunk it
was constructed over and the placeholder suffix. -/
structure CommandSelectSpec where
  commands : List Command
  suffix : String
deriving DecidableEq

/-- `name[0].upper()` on a command name: the first character,
uppercased (character-level, equivalent to `(s.take 1).toUpper`). -/
def firstLetterUpper (s : String) : String :=
  String.mk ((s.data.take 1).map Char.toUpper)

/-- The selector construction in `KuriHelp.send_cog_help`: with more than
25 visible commands, one selector per chunk `commands[i : i+24]`
(`i` stepping by `SELECT_MAX_VALUES - 1`), suffixed
`[commands[i].name[0].upper() - commands[i : i+23][-1].name[0].upper()]`
(the second endpoint slices `SELECT_MAX_VALUES - 2 = 23` entries);
otherwise a single unsuffixed selector over all commands. -/
def sendCogHelpSelects (cmds : List Command) : List CommandSelectSpec :=
  if cmds.length > SELECT_MAX_VALUES then
    (pyRange cmds.length (SELECT_MAX_VALUES - 1)).map (fun i =>
      { commands := pySlice cmds i (i + (SELECT_MAX_VALUES - 1))
        suffix := "[" ++ firstLetterUpper (pyIndex cmds i (mkCmd "")).name ++ "-" ++
          firstLetterUpper
            ((pyIndex (pySlice cmds i (i + (SELECT_MAX_VALUES - 2))) (-1) (mkCmd "")).name) ++
          "]" })
  else [{ commands := cmds, suffix := "" }]

/-- Forty concrete commands: the first 23 names start with "a", the
remaining 17 with "b". -/
def cmds40 : List Command :=
  (List.range 40).map (fun n => mkCmd ((if n < 23 then "a" else "b") ++ toString n))

/-- The three paginator variants a `HelpView` can own. -/
inductive Paginator where
  | main : MainHelpPaginator → Paginator
  | cog : CogHelpPaginator → Paginator
  | cmd : CommandHelpPaginator → Paginator
deriving DecidableEq

namespace Paginator

def base : Paginator → BasePaginator
  | main p => p.base
  | cog p => p.base
  | cmd p => p.base

def withBase : Paginator → BasePaginator → Paginator
  | main p, b => main { p with base := b }
  | cog p, b => cog { p with base := b }
  | cmd p, b => cmd { p with base := b }

def n_pages (p : Paginator) : Int := p.base.n_pages

def previous (p : Paginator) : Paginator := p.withBase p.base.previous

def next (p : Paginator) : Paginator := p.withBase p.base.next

def first (p : Paginator) : Paginator := p.withBase p.base.first

def last (p : Paginator) : Paginator := p.withBase p.base.last

def is_first (p : Paginator) : Bool := p.base.is_first

def is_last (p : Paginator) : Bool := p.base.is_last

end Paginator

/-- `HelpView`: the active paginator, the bound requester's user id, the
disabled flags of the four navigation buttons (`<<` and `Back` are
created disabled, `Next` and `>>` enabled), and a `stopped` flag for
`View.stop`. -/
structure HelpView where
  paginator : Paginator
  author : Nat
  first_page_disabled : Bool
  prev_page_disabled : Bool
  next_page_disabled : Bool
  last_page_disabled : Bool
  stopped : Bool
deriving DecidableEq

namespace HelpView

def disable_buttons (v : HelpView) : HelpView :=
  { v with first_page_disabled := true, prev_page_disabled := true,
           next_page_disabled := true, last_page_disabled := true }

def reset_buttons (v : HelpView) : HelpView :=
  { v with first_page_disabled := true, prev_page_disabled := true,
           next_page_disabled := false, last_page_disabled := false }

/-- `__init__`: decorator defaults, then `disable_buttons` when the
initial paginator has exactly one page. -/
def init (p : Paginator) (author : Nat) : HelpView :=
  let v : HelpView :=
    { paginator := p, author := author,
      first_page_disabled := true, prev_page_disabled := true,
      next_page_disabled := false, last_page_disabled := false,
      stopped := false }
  if p.n_pages == 1 then v.disable_buttons else v

/-- `change_paginator`: install the new paginator, then reset or disable
the buttons from its page count alone. -/
def change_paginator (v : HelpView) (p : Paginator) : HelpView :=
  let v1 := { v with paginator := p }
  if v1.paginator.n_pages > 1 then v1.reset_buttons else v1.disable_buttons

end HelpView

/-- One interactive component callback: the four navigation buttons, the
exit button, or a selector choice carrying the paginator it swaps in. -/
inductive UserAction where
  | first_button
  | prev_button
  | next_button
  | last_button
  | exit_button
  | select (p : Paginator)
deriving DecidableEq

/-- The body of the component callback the framework would dispatch. -/
def HelpView.applyAction (v : HelpView) : UserAction → HelpView
  | UserAction.first_button =>
      let v1 := { v with first_page_disabled := true, prev_page_disabled := true,
                         next_page_disabled := false, last_page_disabled := false }
      { v1 with paginator := v1.paginator.first }
  | UserAction.prev_button =>
      let v1 := { v with next_page_disabled := false, last_page_disabled := false }
      let v2 := { v1 with paginator := v1.paginator.previous }
      if v2.paginator.is_first then
        { v2 with first_page_disabled := true, prev_page_disabled := true }
      else v2
  | UserAction.next_button =>
      let v1 := { v with first_page_disabled := false, prev_page_disabled := false }
      let v2 := { v1 with paginator := v1.paginator.next }
      if v2.paginator.is_last then
        { v2 with next_page_disabled := true, last_page_disabled := true }
      else v2
  | UserAction.last_button =>
      let v1 := { v with first_page_disabled := false, prev_page_disabled := false,
                         next_page_disabled := true, last_page_disabled := true }
      { v1 with paginator := v1.paginator.last }
  | UserAction.exit_button => { v with stopped := true }
  | UserAction.select p => v.change_paginator p

/-- `interaction_check`: only the bound requester passes. -/
def HelpView.interaction_check (v : HelpView) (uid : Nat) : Bool := uid == v.author

/-- One incoming interaction: the framework runs `interaction_check`
first; when it returns false the ephemeral notice is sent and no
component callback runs. -/
def HelpView.handleInteraction (v : HelpView) (uid : Nat) (act : UserAction) :
    HelpView × Option String :=
  if v.interaction_check uid then (v.applyAction act, none)
  else (v, some "This view is not for you.")

/-- A whole interaction sequence, collecting the ephemeral notices. -/
def HelpView.processAll (v : HelpView) : List (Nat × UserAction) → HelpView × List String
  | [] => (v, [])
  | (uid, act) :: rest =>
      let r1 := v.handleInteraction uid act
      let r2 := r1.1.processAll rest
      (r2.1, r1.2.toList ++ r2.2)

/-- A one-page view bound to requester 42 (concrete test data). -/
def demoView : HelpView :=
  HelpView.init (Paginator.cmd (CommandHelpPaginator.init cmdPing "!")) 42

/-- A three-page category-detail paginator (concrete test data). -/
def demoPag2 : Paginator := Paginator.cog (CogHelpPaginator.init cogA cmds17 "!")

/-- A one-page single-command paginator (concrete test data). -/
def demoPag1 : Paginator := Paginator.cmd (CommandHelpPaginator.init cmdPing "!")

/-- One navigation method call on the shared cursor interface. -/
inductive NavOp where
  | previous
  | next
  | first
  | last
deriving DecidableEq

def BasePaginator.applyNav (p : BasePaginator) : NavOp → BasePaginator
  | NavOp.previous => p.previous
  | NavOp.next => p.next
  | NavOp.first => p.first
  | NavOp.last => p.last

def BasePaginator.applyNavs (p : BasePaginator) (ops : List NavOp) : BasePaginator :=
  ops.foldl BasePaginator.applyNav p

lemma applyNav_n_pages (p : BasePaginator) (o : NavOp) :
    (p.applyNav o).n_pages = p.n_pages := by
  cases o <;> rfl

lemma applyNav_pages (p : BasePaginator) (o : NavOp) :
    (p.applyNav o).pages = p.pages := by
  cases o <;> rfl

lemma applyNav_idx_range (p : BasePaginator) (o : NavOp)
    (hn : 1 ≤ p.n_pages) (h0 : 0 ≤ p.idx) (h1 : p.idx ≤ p.n_pages - 1) :
    0 ≤ (p.applyNav o).idx ∧ (p.applyNav o).idx ≤ p.n_pages - 1 := by
  cases o <;>
    simp only [BasePaginator.applyNav, BasePaginator.previous, BasePaginator.next,
      BasePaginator.first, BasePaginator.last] <;>
    omega

lemma applyNavs_n_pages (p : BasePaginator) (ops : List NavOp) :
    (p.applyNavs ops).n_pages = p.n_pages := by
  induction ops generalizing p with
  | nil => rfl
  | cons o ops ih =>
      simp only [BasePaginator.applyNavs, List.foldl_cons] at *
      rw [ih, applyNav_n_pages]

lemma applyNavs_idx_range (p : BasePaginator) (ops : List NavOp)
    (hn : 1 ≤ p.n_pages) (h0 : 0 ≤ p.idx) (h1 : p.idx ≤ p.n_pages - 1) :
    0 ≤ (p.applyNavs ops).idx ∧ (p.applyNavs ops).idx ≤ p.n_pages - 1 := by
  induction ops generalizing p with
  | nil => exact ⟨h0, h1⟩
  | cons o ops ih =>
      have hr := applyNav_idx_range p o hn h0 h1
      have hn' : 1 ≤ (p.applyNav o).n_pages := by rw [applyNav_n_pages]; exact hn
      have := ih (p.applyNav o) hn' hr.1 (by rw [applyNav_n_pages]; exact hr.2)
      simpa [BasePaginator.applyNavs, applyNavs_n_pages, applyNav_n_pages] using this

/-- C1: for every paginator constructed with `n_pages ≥ 1`, the cursor
stays in `[0, n_pages - 1]` after any finite sequence of
previous/next/first/last operations — the operations clamp rather than
wrap, including `previous` at 0 and `next` at the last page. -/
theorem cursor_clamped_in_range (n : Int) (hn : 1 ≤ n) (ops : List NavOp) :
    ((BasePaginator.init n).applyNavs ops).n_pages = n ∧
      0 ≤ ((BasePaginator.init n).applyNavs ops).idx ∧
      ((BasePaginator.init n).applyNavs ops).idx ≤ n - 1 := by
  refine ⟨applyNavs_n_pages _ _, ?_⟩
  have := applyNavs_idx_range (BasePaginator.init n) ops hn (by simp [BasePaginator.init])
    (by simp [BasePaginator.init]; omega)
  simpa [BasePaginator.init] using this

/-- Witness for C1 at `n_pages = 3` and a sequence that hits both clamps. -/
theorem cursor_clamped_in_range_witness :
    (1 : Int) ≤ 3 ∧
      (((BasePaginator.init 3).applyNavs
          [NavOp.previous, NavOp.next, NavOp.last, NavOp.next, NavOp.first]).n_pages = 3 ∧
        0 ≤ ((BasePaginator.init 3).applyNavs
          [NavOp.previous, NavOp.next, NavOp.last, NavOp.next, NavOp.first]).idx ∧
        ((BasePaginator.init 3).applyNavs
          [NavOp.previous, NavOp.next, NavOp.last, NavOp.next, NavOp.first]).idx ≤ 3 - 1) :=
  ⟨by decide,
   cursor_clamped_in_range 3 (by decide)
     [NavOp.previous, NavOp.next, NavOp.last, NavOp.next, NavOp.first]⟩

lemma applyNavs_one_page_idx (ops : List NavOp) :
    ((BasePaginator.init 1).applyNavs ops).idx = 0 := by
  have h := applyNavs_idx_range (BasePaginator.init 1) ops (by decide) (by decide) (by decide)
  simp only [BasePaginator.init] at h ⊢
  omega

/-- C9: `is_first()` holds iff the cursor is 0, `is_last()` holds iff the
cursor is `n_pages - 1`; for a 1-page paginator they are never
simultaneously false — in every reachable state both are true. -/
theorem is_first_is_last_spec :
    (∀ p : BasePaginator, (p.is_first = true ↔ p.idx = 0) ∧
        (p.is_last = true ↔ p.idx = p.n_pages - 1)) ∧
      ∀ ops : List NavOp,
        ((BasePaginator.init 1).applyNavs ops).is_first = true ∧
          ((BasePaginator.init 1).applyNavs ops).is_last = true := by
  constructor
  · intro p
    constructor
    · simp [BasePaginator.is_first]
    · simp [BasePaginator.is_last]
  · intro ops
    have hidx := applyNavs_one_page_idx ops
    have hn : ((BasePaginator.init 1).applyNavs ops).n_pages = 1 :=
      applyNavs_n_pages (BasePaginator.init 1) ops
    constructor
    · simp only [BasePaginator.is_first, hidx]; decide
    · simp only [BasePaginator.is_last, hidx, hn]; decide

/-- C10: a paginator over an empty content collection gets `n_pages = 0`,
and `last()` or `next()` then sets the cursor to `-1`, so the range
invariant and clamping only hold under the unstated precondition
`n_pages ≥ 1`. -/
theorem empty_cog_paginator_negative_cursor :
    (CogHelpPaginator.init emptyCog [] "!").base.n_pages = 0 ∧
      ((CogHelpPaginator.init emptyCog [] "!").base.last).idx = -1 ∧
      ((CogHelpPaginator.init emptyCog [] "!").base.next).idx = -1 ∧
      ¬ 0 ≤ ((CogHelpPaginator.init emptyCog [] "!").base.next).idx := by
  decide

lemma pySlice17 (l : List Command) (h : l.length = 17) :
    pySlice l 0 8 = l.take 8 ∧ pySlice l 8 16 = (l.drop 8).take 8 ∧
      pySlice l 16 24 = l.drop 16 := by
  have h0 : pyResolve 17 0 = 0 := by decide
  have h8 : pyResolve 17 8 = 8 := by decide
  have h16 : pyResolve 17 16 = 16 := by decide
  have h24 : pyResolve 17 24 = 17 := by decide
  refine ⟨?_, ?_, ?_⟩
  · simp [pySlice, h, h0, h8]
  · simp [pySlice, h, h8, h16]
  · simp only [pySlice, h, h16, h24]
    norm_num
    omega

/-- C8: a category-detail paginator over 17 commands has
`n_pages = ceil(17/8) = 3`, and page `i` is built from
`commands[8i : 8i+8]`: page 0 from `commands[0:8]`, page 1 from
`commands[8:16]`, page 2 from `commands[16:17]` (a single command). -/
theorem cogHelp_17_commands_pages (cog : Cog) (cmds : List Command) (pfx : String)
    (h : cmds.length = 17) :
    (CogHelpPaginator.init cog cmds pfx).base.n_pages = 3 ∧
      (((CogHelpPaginator.init cog cmds pfx).atPage 0).current).1 =
        ((CogHelpPaginator.init cog cmds pfx).atPage 0).create_embed (cmds.take 8) ∧
      (((CogHelpPaginator.init cog cmds pfx).atPage 1).current).1 =
        ((CogHelpPaginator.init cog cmds pfx).atPage 1).create_embed ((cmds.drop 8).take 8) ∧
      (((CogHelpPaginator.init cog cmds pfx).atPage 2).current).1 =
        ((CogHelpPaginator.init cog cmds pfx).atPage 2).create_embed (cmds.drop 16) ∧
      (cmds.drop 16).length = 1 := by
  have hs := pySlice17 cmds h
  refine ⟨?_, ?_, ?_, ?_, ?_⟩
  · simp [CogHelpPaginator.init, BasePaginator.init, ceilDiv,
      CogHelpPaginator.commands_per_page, h]
  · simp only [CogHelpPaginator.current, CogHelpPaginator.atPage, CogHelpPaginator.init,
      BasePaginator.init, CogHelpPaginator.commands_per_page, pagesGet, List.find?_nil,
      Option.map_none']
    norm_num [hs.1]
  · simp only [CogHelpPaginator.current, CogHelpPaginator.atPage, CogHelpPaginator.init,
      BasePaginator.init, CogHelpPaginator.commands_per_page, pagesGet, List.find?_nil,
      Option.map_none']
    norm_num [hs.2.1]
  · simp only [CogHelpPaginator.current, CogHelpPaginator.atPage, CogHelpPaginator.init,
      BasePaginator.init, CogHelpPaginator.commands_per_page, pagesGet, List.find?_nil,
      Option.map_none']
    norm_num [hs.2.2]
  · simp [h]

/-- Witness for C8 on seventeen concrete commands. -/
theorem cogHelp_17_commands_pages_witness :
    cmds17.length = 17 ∧ (CogHelpPaginator.init cogA cmds17 "!").base.n_pages = 3 :=
  ⟨by decide, (cogHelp_17_commands_pages cogA cmds17 "!" (by decide)).1⟩

/-- C2 fails as stated: the constructor divides the FULL mapping size by
9, so 21 categories (even with 3 empty ones) give
`n_pages = ceil(21/9) = 3`, not `ceil(18/9) = 2`; the empty categories
are only skipped later, at render time. -/
theorem mainHelp_21cats_n_pages_ne_two :
    (MainHelpPaginator.init mapping21 "A bot" "!").base.n_pages ≠ 2 := by
  decide

/-- C2 amended: over 21 categories with numbers 6, 13 and 20 empty,
`n_pages = ceil(21/9) = 3`, and the rendered field names of each of the
three pages list exactly the non-empty categories of that page's slice —
the zero-command categories appear in no page. -/
theorem mainHelp_21cats_three_pages_empty_omitted :
    (MainHelpPaginator.init mapping21 "A bot" "!").base.n_pages = 3 ∧
      ((((MainHelpPaginator.init mapping21 "A bot" "!").atPage 0).current).1.fields.map
          EmbedField.name) =
        ["**cat0** [1]", "**cat1** [1]", "**cat2** [1]", "**cat3** [1]", "**cat4** [1]",
         "**cat5** [1]", "**cat7** [1]", "**cat8** [1]"] ∧
      ((((MainHelpPaginator.init mapping21 "A bot" "!").atPage 1).current).1.fields.map
          EmbedField.name) =
        ["**cat9** [1]", "**cat10** [1]", "**cat11** [1]", "**cat12** [1]", "**cat14** [1]",
         "**cat15** [1]", "**cat16** [1]", "**cat17** [1]"] ∧
      ((((MainHelpPaginator.init mapping21 "A bot" "!").atPage 2).current).1.fields.map
          EmbedField.name) =
        ["**cat18** [1]", "**cat19** [1]"] := by
  decide

lemma cog_current_caches (p : CogHelpPaginator) :
    (p.current).2.current = ((p.current).1, (p.current).2) ∧
      pagesGet (p.current).2.base.pages p.base.idx = some (p.current).1 := by
  cases hfind : pagesGet p.base.pages p.base.idx with
  | some e =>
      constructor
      · simp [CogHelpPaginator.current, hfind]
      · simp [CogHelpPaginator.current, hfind]
  | none =>
      have hhit : ∀ e : Embed,
          pagesGet (pagesSet p.base.pages p.base.idx e) p.base.idx = some e := by
        intro e
        simp [pagesGet, pagesSet]
      constructor
      · simp [CogHelpPaginator.current, hfind, hhit]
      · simp [CogHelpPaginator.current, hfind, hhit]

lemma main_current_caches (p : MainHelpPaginator) :
    (p.current).2.current = ((p.current).1, (p.current).2) ∧
      pagesGet (p.current).2.base.pages p.base.idx = some (p.current).1 := by
  cases hfind : pagesGet p.base.pages p.base.idx with
  | some e =>
      constructor
      · simp [MainHelpPaginator.current, hfind]
      · simp [MainHelpPaginator.current, hfind]
  | none =>
      have hhit : ∀ e : Embed,
          pagesGet (pagesSet p.base.pages p.base.idx e) p.base.idx = some e := by
        intro e
        simp [pagesGet, pagesSet]
      constructor
      · simp [MainHelpPaginator.current, hfind, hhit]
      · simp [MainHelpPaginator.current, hfind, hhit]

/-- C4 fails as stated for the single-command paginator: its `current()`
never touches the page cache — after a first call at cursor 0, the cache
lookup still misses and the paginator state is unchanged. -/
theorem commandHelp_current_no_cache :
    ((CommandHelpPaginator.init cmdPing "!").current).2 = CommandHelpPaginator.init cmdPing "!" ∧
      pagesGet ((CommandHelpPaginator.init cmdPing "!").current).2.base.pages
        ((CommandHelpPaginator.init cmdPing "!").current).2.base.idx = none := by
  decide

/-- C4 amended: the category-index and category-detail paginators cache —
after one `current()` the cache holds the embed at the cursor and a second
`current()` is a pure cache hit (same embed, unchanged state); the
single-command paginator instead rebuilds the identical embed on every
call and never populates the cache. -/
theorem paginator_current_cache_amended :
    (∀ p : CogHelpPaginator, (p.current).2.current = ((p.current).1, (p.current).2) ∧
        pagesGet (p.current).2.base.pages p.base.idx = some (p.current).1) ∧
      (∀ p : MainHelpPaginator, (p.current).2.current = ((p.current).1, (p.current).2) ∧
        pagesGet (p.current).2.base.pages p.base.idx = some (p.current).1) ∧
      ∀ p : CommandHelpPaginator,
        p.current = (p.create_embed p.command, p) ∧ (p.current).2.base.pages = p.base.pages :=
  ⟨cog_current_caches, main_current_caches, fun _ => ⟨rfl, rfl⟩⟩

/-- C3: evaluating the selector-splitting code on 40 commands whose first
23 names start with "a" and the rest with "b". The chunks are
`commands[0:24]` and `commands[24:40]` as claimed, but chunk 0's label is
"[A-A]" although the chunk's last command (index 23) starts with "B": the
label's second endpoint is taken from `commands[0:23][-1]` (index 22),
not from the chunk's last element. -/
theorem cogHelp_select_split_label_eval :
    (sendCogHelpSelects cmds40).map (fun s => s.commands) =
        [pySlice cmds40 0 24, pySlice cmds40 24 48] ∧
      ((sendCogHelpSelects cmds40).map (fun s => s.commands)).map List.length = [24, 16] ∧
      (sendCogHelpSelects cmds40).map (fun s => s.suffix) = ["[A-A]", "[B-B]"] ∧
      firstLetterUpper ((pyIndex (pySlice cmds40 0 24) (-1) (mkCmd "")).name) = "B" := by
  decide

/-- C5: an interaction from any identity other than the bound requester
is answered with the ephemeral notice and leaves the view — cursor,
active paginator, button flags, stopped flag — unchanged, for any number
of such interactions in any order. -/
theorem foreign_interactions_no_state_change (v : HelpView)
    (evs : List (Nat × UserAction)) (h : ∀ e ∈ evs, e.1 ≠ v.author) :
    (v.processAll evs).1 = v ∧
      (v.processAll evs).2 = evs.map (fun _ => "This view is not for you.") := by
  induction evs with
  | nil => exact ⟨rfl, rfl⟩
  | cons e rest ih =>
      obtain ⟨uid, act⟩ := e
      have he : uid ≠ v.author := h (uid, act) (List.mem_cons_self _ _)
      have hchk : v.interaction_check uid = false := by
        simp [HelpView.interaction_check, he]
      obtain ⟨ih1, ih2⟩ := ih (fun x hx => h x (List.mem_cons_of_mem _ hx))
      constructor <;>
        simp [HelpView.processAll, HelpView.handleInteraction, hchk, ih1, ih2]

/-- Witness for C5: two foreign interactions against a view bound to
user 42. -/
theorem foreign_interactions_no_state_change_witness :
    ((7 : Nat) ≠ demoView.author ∧ (9 : Nat) ≠ demoView.author) ∧
      (demoView.processAll [(7, UserAction.next_button), (9, UserAction.exit_button)]).1 =
        demoView ∧
      (demoView.processAll [(7, UserAction.next_button), (9, UserAction.exit_button)]).2 =
        ["This view is not for you.", "This view is not for you."] :=
  ⟨⟨by decide, by decide⟩,
   (foreign_interactions_no_state_change demoView
      [(7, UserAction.next_button), (9, UserAction.exit_button)] (by decide)).1,
   by
     have h2 := (foreign_interactions_no_state_change demoView
       [(7, UserAction.next_button), (9, UserAction.exit_button)] (by decide)).2
     simpa using h2⟩

/-- C6: `change_paginator` installs the new paginator and resets button
state as a function of the new paginator only: with more than one page,
first/back are disabled and next/last enabled; with exactly one page all
four are disabled. -/
theorem change_paginator_button_reset (v w : HelpView) (p : Paginator) :
    (v.change_paginator p).paginator = p ∧
      ((v.change_paginator p).first_page_disabled = (w.change_paginator p).first_page_disabled ∧
        (v.change_paginator p).prev_page_disabled = (w.change_paginator p).prev_page_disabled ∧
        (v.change_paginator p).next_page_disabled = (w.change_paginator p).next_page_disabled ∧
        (v.change_paginator p).last_page_disabled = (w.change_paginator p).last_page_disabled) ∧
      (p.n_pages > 1 →
        (v.change_paginator p).first_page_disabled = true ∧
          (v.change_paginator p).prev_page_disabled = true ∧
          (v.change_paginator p).next_page_disabled = false ∧
          (v.change_paginator p).last_page_disabled = false) ∧
      (p.n_pages = 1 →
        (v.change_paginator p).first_page_disabled = true ∧
          (v.change_paginator p).prev_page_disabled = true ∧
          (v.change_paginator p).next_page_disabled = true ∧
          (v.change_paginator p).last_page_disabled = true) := by
  by_cases hp : p.n_pages > 1
  · simp [HelpView.change_paginator, HelpView.reset_buttons, HelpView.disable_buttons, hp]
    omega
  · simp [HelpView.change_paginator, HelpView.reset_buttons, HelpView.disable_buttons, hp]

/-- Witness for C6: swapping a three-page paginator into the demo view. -/
theorem change_paginator_button_reset_witness :
    demoPag2.n_pages > 1 ∧
      (demoView.change_paginator demoPag2).paginator = demoPag2 ∧
      (demoView.change_paginator demoPag2).first_page_disabled = true ∧
      (demoView.change_paginator demoPag2).next_page_disabled = false :=
  ⟨by decide, (change_paginator_button_reset demoView demoView demoPag2).1,
   ((change_paginator_button_reset demoView demoView demoPag2).2.2.1 (by decide)).1,
   ((change_paginator_button_reset demoView demoView demoPag2).2.2.1 (by decide)).2.2.1⟩

/-- C7: a view constructed over a one-page paginator starts with all four
navigation buttons disabled; over a multi-page paginator it starts with
first/back disabled and next/last enabled. -/
theorem helpView_init_button_state (p : Paginator) (a : Nat) :
    (p.n_pages = 1 →
      (HelpView.init p a).first_page_disabled = true ∧
        (HelpView.init p a).prev_page_disabled = true ∧
        (HelpView.init p a).next_page_disabled = true ∧
        (HelpView.init p a).last_page_disabled = true) ∧
      (p.n_pages > 1 →
        (HelpView.init p a).first_page_disabled = true ∧
          (HelpView.init p a).prev_page_disabled = true ∧
          (HelpView.init p a).next_page_disabled = false ∧
          (HelpView.init p a).last_page_disabled = false) := by
  by_cases hp : p.n_pages = 1
  · simp [HelpView.init, HelpView.disable_buttons, hp]
  · constructor
    · intro hc
      exact absurd hc hp
    · intro _
      simp [HelpView.init, HelpView.disable_buttons, hp]

/-- Witness for C7: constructing over the one-page demo paginator. -/
theorem helpView_init_button_state_witness :
    demoPag1.n_pages = 1 ∧
      (HelpView.init demoPag1 42).first_page_disabled = true ∧
      (HelpView.init demoPag1 42).next_page_disabled = true :=
  ⟨by decide, ((helpView_init_button_state demoPag1 42).1 (by decide)).1,
   ((helpView_init_button_state demoPag1 42).1 (by decide)).2.2.1⟩

end KurisuHelp
